import Mathlib

/-!
Shallow embedding of the feedback-classification pipeline of the `feda`
repository (`src/app/backend`): the taxonomy (`models/categories.py`), the
pydantic response validator (`models/llm_models.py`), the LLM service batch
path (`llm_service.py`), the feedback processor (`process_feedback_service.py`)
and the batch-size configuration (`config/processing_config.py`).

External effects are made explicit: the LLM call outcome is a parameter of
type `Except String String` (error = the Python exception message), the
database save is a parameter, `datetime.now().isoformat()` is a `now`
parameter, and `json.loads` is modelled by a small JSON parser `pyJsonLoads`
over a `Json` value type (strings, integers, booleans, null, arrays,
objects — the shapes the pipeline manipulates).
-/

namespace Feda

/-- `Categories.CATEGORIES` from `models/categories.py`:
category → subcategory group → allowed detail tags. -/
def CATEGORIES : List (String × List (String × List String)) :=
  [ ("Bug & Issues",
      [ ("UI/UX Bugs", ["display_error", "layout_issue", "responsive_bug", "visual_glitch"])
      , ("Functional Bugs", ["crash", "data_loss", "performance_lag", "feature_malfunction"])
      , ("Authentication Bugs", ["login_error", "session_issue", "access_denied", "token_expired"])
      , ("Payment Bugs", ["transaction_fail", "pricing_error", "checkout_issue", "refund_problem"])
      , ("Integration Bugs", ["api_error", "sync_fail", "third_party_issue", "connection_error"])
      , ("Security Bugs", ["vulnerability", "data_breach", "authentication_bypass", "injection_risk"]) ])
  , ("Feature Requests",
      [ ("New Features", ["new_functionality", "additional_option", "new_integration", "new_tool"])
      , ("Enhancements", ["improvement", "optimization", "better_ui", "workflow_enhancement"])
      , ("Customization", ["personalization", "configuration", "theming", "user_preference"])
      , ("Integration", ["api_feature", "third_party", "external_service", "data_sync"]) ])
  , ("Performance",
      [ ("Speed Issues", ["slow_loading", "response_time", "lag", "bottleneck"])
      , ("Resource Usage", ["high_cpu", "memory_leak", "battery_drain", "storage_issue"])
      , ("Scalability", ["load_handling", "concurrent_users", "data_volume", "traffic_spike"])
      , ("Optimization", ["efficiency", "resource_optimization", "caching", "performance_tuning"]) ])
  , ("User Satisfaction",
      [ ("Positive Feedback", ["praise", "appreciation", "satisfaction", "endorsement"])
      , ("Complaints", ["frustration", "dissatisfaction", "annoyance", "disappointment"])
      , ("Suggestions", ["recommendation", "improvement_idea", "user_request", "feedback"]) ])
  , ("App Experience",
      [ ("Usability", ["ease_of_use", "user_friendly", "intuitive", "accessibility"])
      , ("Content", ["ads", "pricing", "features", "information"])
      , ("Compatibility", ["device_support", "version_issues", "platform_specific", "compatibility_problem"]) ])
  , ("Uncategorized",
      [ ("General Comments", ["general_feedback", "comment", "statement", "observation"])
      , ("Unclear Feedback", ["ambiguous", "unclear", "incomplete", "unspecific"])
      , ("Other", ["miscellaneous", "unclassified", "other", "unknown"]) ]) ]

/-- The keys of the taxonomy dictionary. -/
def taxonomyKeys : List String := CATEGORIES.map Prod.fst

/-- Python `Categories.CATEGORIES.get(c)`: the subcategory groups of `c`. -/
def taxonomyLookup (c : String) : Option (List (String × List String)) :=
  (CATEGORIES.find? (fun p => p.fst == c)).map Prod.snd

/-- Dictionary lookup in an association list (Python `dict.get(k)`). -/
def lookupStr (m : List (String × String)) (k : String) : Option String :=
  (m.find? (fun p => p.fst == k)).map Prod.snd

/-- The `sentiment_mapping` table of `FeedbackResponse.validate_sentiment`. -/
def sentiment_mapping : List (String × String) :=
  [ ("positive", "positive"), ("praise", "positive"), ("good", "positive"), ("great", "positive")
  , ("negative", "negative"), ("bad", "negative"), ("issue", "negative")
  , ("problem", "negative"), ("bug", "negative")
  , ("neutral", "neutral"), ("suggestion", "neutral")
  , ("feature_request", "neutral"), ("request", "neutral") ]

/-- Python `str.lower()` (ASCII case folding, character by character). -/
def pyLower (s : String) : String :=
  String.mk (s.toList.map Char.toLower)

/-- `FeedbackResponse.validate_sentiment` on a string value:
lower-case, look up in the synonym table, default `"neutral"`. -/
def validate_sentiment (v : String) : String :=
  (lookupStr sentiment_mapping (pyLower v)).getD "neutral"

/-- The `category_mapping` alias table of `FeedbackResponse.validate_category`. -/
def category_mapping : List (String × String) :=
  [ ("Bug", "Bug & Issues"), ("Bugs", "Bug & Issues")
  , ("Feature", "Feature Requests"), ("Features", "Feature Requests")
  , ("Performance Issues", "Performance"), ("Performance Problems", "Performance") ]

/-- `FeedbackResponse.validate_category`: alias-rewrite, then require a
taxonomy key or the sentinel `"Error"`; otherwise raise `ValueError`. -/
def validate_category (category : String) : Except String String :=
  let normalized := (lookupStr category_mapping category).getD category
  if normalized ∈ taxonomyKeys ∨ normalized = "Error" then
    Except.ok normalized
  else
    Except.error ("Invalid category: " ++ category)

/-- `FeedbackResponse.validate_subcategory`. The `valid_subcategories` set is
the group names plus every nested tag; a value in that set is returned as is;
otherwise the (unreachable) rewrite loop runs, then a default for three
categories, and the raw value falls through for the rest. An unknown category
key raises (`Categories.CATEGORIES[category]` is a `KeyError`). -/
def validate_subcategory (subcategory category : String) : Except String String :=
  if category = "Error" then Except.ok subcategory
  else
    let groups := (taxonomyLookup category).getD []
    let validSubs := groups.map Prod.fst ++ groups.flatMap Prod.snd
    if subcategory ∈ validSubs then Except.ok subcategory
    else
      match taxonomyLookup category with
      | none => Except.error ("KeyError: " ++ category)
      | some gs =>
        match gs.find? (fun g => g.snd.contains subcategory) with
        | some g => Except.ok g.fst
        | none =>
          if category = "Performance" then Except.ok "Speed Issues"
          else if category = "Bug & Issues" then Except.ok "UI/UX Bugs"
          else if category = "Feature Requests" then Except.ok "New Features"
          else Except.ok subcategory

/-- `FeedbackResponse.ensure_details` on a present list value: an empty list
is replaced by a category-dependent default, a non-empty list passes through. -/
def ensure_details (v : List String) (category : String) : List String :=
  if v.isEmpty then
    if category = "Uncategorized" then ["general_feedback"]
    else if category = "User Satisfaction" then ["feedback"]
    else if category = "App Experience" then ["user_feedback"]
    else ["unspecified"]
  else v

/-- A raw parsed response object, as handed to `FeedbackResponse(**data)`:
string fields, and `details` optional (`none` = key absent, so the pydantic
`default_factory` applies and `ensure_details` is not run). -/
structure RawFeedback where
  sentiment : String
  category : String
  subcategory : String
  details : Option (List String)
  summary : String
deriving Repr, DecidableEq

/-- A validated `FeedbackResponse` (also the shape of the result dictionaries
the batch path produces). -/
structure FeedbackResponse where
  sentiment : String
  category : String
  subcategory : String
  details : List String
  summary : String
deriving Repr, DecidableEq

/-- Construction of `FeedbackResponse(**raw)`: run the field validators in
declaration order; `summary` carries `min_length=10, max_length=200`.
Failure of any validator fails the construction. -/
def mkFeedbackResponse (raw : RawFeedback) : Except String FeedbackResponse :=
  match validate_category raw.category with
  | Except.error e => Except.error e
  | Except.ok c =>
    match validate_subcategory raw.subcategory c with
    | Except.error e => Except.error e
    | Except.ok sub =>
      let d := match raw.details with
        | none => ["general_feedback"]
        | some v => ensure_details v c
      if 10 ≤ raw.summary.length ∧ raw.summary.length ≤ 200 then
        Except.ok ⟨validate_sentiment raw.sentiment, c, sub, d, raw.summary⟩
      else
        Except.error "summary length out of range"

namespace BatchConfig

/-- `BatchConfig.DEFAULT_BATCH_SIZE` from `config/processing_config.py`. -/
def DEFAULT_BATCH_SIZE : Int := 50

/-- `BatchConfig.MIN_BATCH_SIZE`. -/
def MIN_BATCH_SIZE : Int := 10

/-- `BatchConfig.MAX_BATCH_SIZE`. -/
def MAX_BATCH_SIZE : Int := 100

/-- `BatchConfig.validate_batch_size`:
`max(min(size, MAX_BATCH_SIZE), MIN_BATCH_SIZE)`. -/
def validate_batch_size (size : Int) : Int :=
  max (min size MAX_BATCH_SIZE) MIN_BATCH_SIZE

end BatchConfig

/-- `LLMConfig.MAX_RETRIES` from `config/llm_config.py` (defined, but read
nowhere in the repository). -/
def MAX_RETRIES : Nat := 3

/-- JSON values, as produced by Python `json.loads`. -/
inductive Json where
  | null : Json
  | bool : Bool → Json
  | num : Int → Json
  | str : String → Json
  | arr : List Json → Json
  | obj : List (String × Json) → Json
deriving Repr

/-- Skip JSON whitespace. -/
def skipWs : List Char → List Char
  | c :: cs => if c = ' ' ∨ c = '\n' ∨ c = '\t' ∨ c = '\r' then skipWs cs else c :: cs
  | [] => []

/-- Parse the body of a JSON string after the opening quote (escape-free
strings, which is all the pipeline ever produces or consumes here). -/
def parseStrBody : List Char → List Char → Option (String × List Char)
  | [], _ => none
  | '\"' :: rest, acc => some (String.mk acc.reverse, rest)
  | '\\' :: _, _ => none
  | c :: rest, acc => parseStrBody rest (c :: acc)

/-- Accumulate decimal digits. -/
def parseDigits : List Char → Nat → Nat × List Char
  | c :: rest, acc =>
    if c.isDigit then parseDigits rest (acc * 10 + (c.toNat - 48)) else (acc, c :: rest)
  | [], acc => (acc, [])

mutual

/-- Recursive-descent parser for a JSON value (integer numerals only). -/
def parseValue (fuel : Nat) (cs : List Char) : Option (Json × List Char) :=
  match fuel with
  | 0 => none
  | fuel + 1 =>
    match skipWs cs with
    | [] => none
    | '\"' :: rest =>
      match parseStrBody rest [] with
      | some (s, r) => some (Json.str s, r)
      | none => none
    | '[' :: rest =>
      match skipWs rest with
      | ']' :: r => some (Json.arr [], r)
      | cs2 =>
        match parseItems fuel cs2 with
        | some (vs, r) => some (Json.arr vs, r)
        | none => none
    | '\x7b' :: rest =>
      match skipWs rest with
      | '\x7d' :: r => some (Json.obj [], r)
      | cs2 =>
        match parseMembers fuel cs2 with
        | some (ms, r) => some (Json.obj ms, r)
        | none => none
    | 't' :: 'r' :: 'u' :: 'e' :: r => some (Json.bool true, r)
    | 'f' :: 'a' :: 'l' :: 's' :: 'e' :: r => some (Json.bool false, r)
    | 'n' :: 'u' :: 'l' :: 'l' :: r => some (Json.null, r)
    | '-' :: c :: rest =>
      if c.isDigit then
        match parseDigits (c :: rest) 0 with
        | (n, r) => some (Json.num (-(n : Int)), r)
      else none
    | c :: rest =>
      if c.isDigit then
        match parseDigits (c :: rest) 0 with
        | (n, r) => some (Json.num (n : Int), r)
      else none

/-- Parse the comma-separated items of a non-empty JSON array, up to `]`. -/
def parseItems (fuel : Nat) (cs : List Char) : Option (List Json × List Char) :=
  match fuel with
  | 0 => none
  | fuel + 1 =>
    match parseValue fuel cs with
    | none => none
    | some (v, rest) =>
      match skipWs rest with
      | ',' :: r =>
        match parseItems fuel r with
        | some (vs, r2) => some (v :: vs, r2)
        | none => none
      | ']' :: r => some ([v], r)
      | _ => none

/-- Parse the members of a non-empty JSON object, up to the closing brace. -/
def parseMembers (fuel : Nat) (cs : List Char) : Option (List (String × Json) × List Char) :=
  match fuel with
  | 0 => none
  | fuel + 1 =>
    match skipWs cs with
    | '\"' :: rest =>
      match parseStrBody rest [] with
      | none => none
      | some (k, r1) =>
        match skipWs r1 with
        | ':' :: r2 =>
          match parseValue fuel r2 with
          | none => none
          | some (v, r3) =>
            match skipWs r3 with
            | ',' :: r4 =>
              match parseMembers fuel r4 with
              | some (ms, r5) => some ((k, v) :: ms, r5)
              | none => none
            | '\x7d' :: r4 => some ([(k, v)], r4)
            | _ => none
        | _ => none
    | _ => none

end

/-- Python `json.loads`: parse one JSON value, allow only trailing
whitespace, fail otherwise. -/
def pyJsonLoads (s : String) : Option Json :=
  match parseValue (2 * s.length + 2) s.toList with
  | some (v, rest) => if (skipWs rest).isEmpty then some v else none
  | none => none

/-- Python `for result in results:` over a parsed JSON value: arrays yield
their elements, dicts their keys, strings their characters; numbers,
booleans and `None` raise `TypeError` (modelled as `none`). -/
def pyIterate : Json → Option (List Json)
  | Json.arr xs => some xs
  | Json.obj fs => some (fs.map (fun f => Json.str f.fst))
  | Json.str s => some (s.toList.map (fun c => Json.str (String.mk [c])))
  | _ => none

/-- All elements are JSON strings, extracted. -/
def asStrings : List Json → Option (List String)
  | [] => some []
  | Json.str s :: rest =>
    match asStrings rest with
    | some l => some (s :: l)
    | none => none
  | _ => none

/-- `FeedbackResponse(**result)` argument extraction: the element must be an
object with string `sentiment`, `category`, `subcategory` and `summary`
fields; `details` is optional (absent key = pydantic default applies) and,
when present, must be a list of strings (`null` behaves exactly like the
empty list in `ensure_details` and is modelled as such). Anything else
raises and is reported as an error. -/
def jsonToRaw (j : Json) : Except String RawFeedback :=
  match j with
  | Json.obj fields =>
    let get := fun k => (fields.find? (fun p => p.fst == k)).map Prod.snd
    match get "sentiment", get "category", get "subcategory", get "summary" with
    | some (Json.str s), some (Json.str c), some (Json.str sub), some (Json.str sum) =>
      match get "details" with
      | none => Except.ok ⟨s, c, sub, none, sum⟩
      | some Json.null => Except.ok ⟨s, c, sub, some [], sum⟩
      | some (Json.arr ds) =>
        match asStrings ds with
        | some l => Except.ok ⟨s, c, sub, some l, sum⟩
        | none => Except.error "details entries must be strings"
      | some _ => Except.error "details must be a list"
    | _, _, _, _ => Except.error "missing or non-string required field"
  | _ => Except.error "TypeError: argument must be a mapping"

/-- The per-element error substitute of `process_feedback_batch`
(inner `except` branch). -/
def validation_error_result (e : String) : FeedbackResponse :=
  ⟨"neutral", "Error", "Validation Error", ["error_processing"],
    "Error validating feedback: " ++ e⟩

/-- The whole-batch error substitute of `process_feedback_batch`
(outer `except` branch). -/
def processing_error_result (e : String) : FeedbackResponse :=
  ⟨"neutral", "Error", "Processing Error", ["error_processing"],
    "Error processing feedback: " ++ e⟩

/-- One element of the parsed array through `FeedbackResponse(**result)`,
with the inner `except` substituting a Validation Error result. -/
def classify_element (j : Json) : FeedbackResponse :=
  match (jsonToRaw j).bind mkFeedbackResponse with
  | Except.ok r => r
  | Except.error e => validation_error_result e

/-- `LLMService.process_feedback_batch`. The chat-completion outcome is the
`response` parameter (`Except.error` = the API call raised). The body runs
`json.loads` on the raw response text, iterates, and validates each element;
any failure before the per-element loop hits the outer `except` and yields
one Processing Error result per input feedback. -/
def llm_process_feedback_batch (feedbacks : List String)
    (response : Except String String) : List FeedbackResponse :=
  match response with
  | Except.error e => feedbacks.map (fun _ => processing_error_result e)
  | Except.ok text =>
    match pyJsonLoads text with
    | none => feedbacks.map (fun _ => processing_error_result "Invalid JSON")
    | some j =>
      match pyIterate j with
      | none => feedbacks.map (fun _ => processing_error_result "TypeError")
      | some elems => elems.map classify_element

/-- `LLMService._create_chat_completion`: one call to the underlying API
(`api n` is the outcome the API would give to the n-th call made, counting
from 0), the error re-raised as is. The second component counts the calls
actually made: the body contains no retry loop, so it is always 1. -/
def create_chat_completion (api : Nat → Except String String) :
    Except String String × Nat :=
  (api 0, 1)

/-- `LLMService.get_response_safe`: catch any failure of the completion call
and return the fixed string `"Error: <message>"` (the function has no
caller-supplied default parameter). -/
def get_response_safe (api : Nat → Except String String) : String :=
  match (create_chat_completion api).fst with
  | Except.ok s => s
  | Except.error e => "Error: " ++ e

/-- Python `cleaned_response[7:-3]` on the stripped response. -/
def py_slice_7_neg3 (s : String) : String :=
  String.mk ((s.toList.drop 7).take (s.length - 10))

/-- Whitespace test used by `str.strip()`. -/
def isPyWs (c : Char) : Bool :=
  c = ' ' ∨ c = '\n' ∨ c = '\t' ∨ c = '\r'

/-- Drop leading whitespace characters. -/
def dropWsChars : List Char → List Char
  | c :: cs => if isPyWs c then dropWsChars cs else c :: cs
  | [] => []

/-- Python `str.strip()`: remove leading and trailing whitespace. -/
def pyStrip (s : String) : String :=
  String.mk (List.reverse (dropWsChars (List.reverse (dropWsChars s.toList))))

/-- `List.isPrefixOf` as an executable check on characters. -/
def isPrefixChars : List Char → List Char → Bool
  | [], _ => true
  | _ :: _, [] => false
  | p :: ps, c :: cs => p = c && isPrefixChars ps cs

/-- Python `str.startswith`. -/
def pyStartsWith (s pre : String) : Bool :=
  isPrefixChars pre.toList s.toList

/-- The cleaning step of `LLMService._parse_llm_response`: `.strip()`, then
drop the first 7 and last 3 characters when the text starts with a
` ```json ` fence marker. -/
def strip_llm_fence (s : String) : String :=
  let cleaned := pyStrip s
  if pyStartsWith cleaned "\x60\x60\x60json" then py_slice_7_neg3 cleaned
  else cleaned

/-- `LLMService._parse_llm_response` (the single-item path): clean the
response, `json.loads` it, and build a `FeedbackResponse` from it; every
failure becomes a `ValueError`. -/
def parse_llm_response (response : String) : Except String FeedbackResponse :=
  match pyJsonLoads (strip_llm_fence response) with
  | none => Except.error "Invalid JSON response"
  | some j => (jsonToRaw j).bind mkFeedbackResponse

/-- `FeedbackItem` from `models/feedback_models.py`. -/
structure FeedbackItem where
  text : String
  email : String
deriving Repr, DecidableEq

/-- `ProcessedFeedback` from `models/feedback_models.py`. -/
structure ProcessedFeedback where
  email : String
  original_feedback : String
  sentiment : String
  category : String
  subcategory : String
  details : List String
  summary : String
  created_at : String
deriving Repr, DecidableEq

/-- `ProcessedFeedback.create_error_response` (timestamp made explicit). -/
def create_error_response (item : FeedbackItem) (error_message now : String) :
    ProcessedFeedback :=
  ⟨item.email, item.text, "neutral", "Error", "Processing Error",
    ["error_processing"], "Error processing feedback: " ++ error_message, now⟩

/-- `FeedbackProcessor.process_feedback_batch`, success path of the outer
`try`. Rows are `(feedback, email)` pairs; `classify` is the outcome of
`llm_service.process_feedback_batch` on the batch texts; `save` is the
database call, whose failure degrades only that item via
`create_error_response`. Items and classifier results are paired with
`zip`, exactly as in the source. -/
def processor_process_feedback_batch (now : String)
    (save : ProcessedFeedback → Except String Unit)
    (classify : List String → List FeedbackResponse)
    (rows : List (String × String)) : List ProcessedFeedback :=
  let feedback_batch := rows.map (fun r => FeedbackItem.mk r.fst r.snd)
  let processed_batch := classify (feedback_batch.map FeedbackItem.text)
  (feedback_batch.zip processed_batch).map (fun p =>
    let result : ProcessedFeedback :=
      ⟨p.fst.email, p.fst.text, p.snd.sentiment, p.snd.category,
        p.snd.subcategory, p.snd.details, p.snd.summary, now⟩
    match save result with
    | Except.ok _ => result
    | Except.error e => create_error_response p.fst ("Processing error: " ++ e) now)

/-- The `valid_subcategories` set computed inside `validate_subcategory`:
the category's subcategory-group names together with every nested tag. -/
def validSubsOf (c : String) : List String :=
  let groups := (taxonomyLookup c).getD []
  groups.map Prod.fst ++ groups.flatMap Prod.snd

/-- The subcategory-group names of a category. -/
def groupNamesOf (c : String) : List String :=
  ((taxonomyLookup c).getD []).map Prod.fst

/-- Characterization of `validate_subcategory` on a category present in the
taxonomy: a value in the valid set passes through unchanged, otherwise a
default is substituted for exactly three categories and the raw value falls
through for the rest. -/
theorem validate_subcategory_char (sub c : String) (G : List (String × List String))
    (hne : c ≠ "Error") (hG : taxonomyLookup c = some G) :
    validate_subcategory sub c =
      Except.ok (if sub ∈ G.map Prod.fst ++ G.flatMap Prod.snd then sub
        else if c = "Performance" then "Speed Issues"
        else if c = "Bug & Issues" then "UI/UX Bugs"
        else if c = "Feature Requests" then "New Features"
        else sub) := by
  unfold validate_subcategory
  rw [if_neg hne, hG]
  by_cases hmem : sub ∈ G.map Prod.fst ++ G.flatMap Prod.snd
  · simp only [Option.getD_some, if_pos hmem]
  · have hfind : G.find? (fun g => g.snd.contains sub) = none := by
      apply List.find?_eq_none.mpr
      intro g hg hc
      exact hmem (List.mem_append_right _
        (List.mem_flatMap.mpr ⟨g, hg, List.elem_iff.mp hc⟩))
    simp only [Option.getD_some, if_neg hmem, hfind]
    split_ifs <;> rfl

/-- A successful `validate_category` yields a taxonomy key or `"Error"`. -/
theorem validate_category_ok (cat x : String)
    (h : validate_category cat = Except.ok x) : x ∈ taxonomyKeys ∨ x = "Error" := by
  unfold validate_category at h
  simp only at h
  split at h
  · rename_i hcond
    injection h with h
    subst h
    exact hcond
  · simp at h

/-- A taxonomy key maps to itself under `validate_category` (no taxonomy key
is an alias-table key). -/
theorem validate_category_key_id (c : String) (hc : c ∈ taxonomyKeys) :
    validate_category c = Except.ok c := by
  simp only [taxonomyKeys, CATEGORIES, List.map_cons, List.map_nil, List.mem_cons,
    List.not_mem_nil, or_false] at hc
  rcases hc with rfl | rfl | rfl | rfl | rfl | rfl <;> rfl

/-- On the known sentiment labels, `validate_sentiment` is the identity. -/
theorem validate_sentiment_id (s : String)
    (hs : s ∈ ["positive", "negative", "neutral"]) : validate_sentiment s = s := by
  simp only [List.mem_cons, List.not_mem_nil, or_false] at hs
  rcases hs with rfl | rfl | rfl <;> rfl

/-- `ensure_details` never returns an empty list. -/
theorem ensure_details_ne_nil (v : List String) (c : String) :
    ensure_details v c ≠ [] := by
  unfold ensure_details
  split_ifs <;> simp_all [List.isEmpty_iff]

/-- For the three categories with a default subcategory, every successful
`validate_subcategory` outcome lies in the category's valid set. -/
theorem validate_subcategory_valid (sub c x : String)
    (hc : c ∈ ["Performance", "Bug & Issues", "Feature Requests"])
    (h : validate_subcategory sub c = Except.ok x) : x ∈ validSubsOf c := by
  simp only [List.mem_cons, List.not_mem_nil, or_false] at hc
  rcases hc with rfl | rfl | rfl
  · rw [validate_subcategory_char sub "Performance"
      ((taxonomyLookup "Performance").getD []) (by decide) rfl] at h
    injection h with h
    split at h
    · rename_i hcond
      subst h
      exact hcond
    · rw [if_pos rfl] at h
      subst h
      decide
  · rw [validate_subcategory_char sub "Bug & Issues"
      ((taxonomyLookup "Bug & Issues").getD []) (by decide) rfl] at h
    injection h with h
    split at h
    · rename_i hcond
      subst h
      exact hcond
    · rw [if_neg (by decide), if_pos rfl] at h
      subst h
      decide
  · rw [validate_subcategory_char sub "Feature Requests"
      ((taxonomyLookup "Feature Requests").getD []) (by decide) rfl] at h
    injection h with h
    split at h
    · rename_i hcond
      subst h
      exact hcond
    · rw [if_neg (by decide), if_neg (by decide), if_pos rfl] at h
      subst h
      decide

/-- Every successfully validated response has a category that is a taxonomy
key or `"Error"`, a subcategory in the valid set whenever the category is one
of the three with defaults, and a non-empty details list. -/
theorem mkFeedbackResponse_ok_props (raw : RawFeedback) (r : FeedbackResponse)
    (h : mkFeedbackResponse raw = Except.ok r) :
    (r.category ∈ taxonomyKeys ∨ r.category = "Error") ∧
      (r.category ∈ ["Performance", "Bug & Issues", "Feature Requests"] →
        r.subcategory ∈ validSubsOf r.category) ∧
      r.details ≠ [] := by
  unfold mkFeedbackResponse at h
  split at h
  · simp at h
  · rename_i c hcat
    split at h
    · simp at h
    · rename_i sub hsub
      split at h
      · split at h
        · injection h with h
          subst h
          exact ⟨validate_category_ok raw.category c hcat,
            fun hmem => validate_subcategory_valid raw.subcategory c sub hmem hsub,
            by simp⟩
        · simp at h
      · rename_i v hd
        split at h
        · injection h with h
          subst h
          exact ⟨validate_category_ok raw.category c hcat,
            fun hmem => validate_subcategory_valid raw.subcategory c sub hmem hsub,
            ensure_details_ne_nil v c⟩
        · simp at h

/-- C9: the configured batch size is clamped into
`[MIN_BATCH_SIZE, MAX_BATCH_SIZE]`; requesting 5 yields 10 and requesting
500 yields 100, with default 50 and bounds 10 and 100. -/
theorem batch_size_clamping :
    (∀ s : Int, BatchConfig.MIN_BATCH_SIZE ≤ BatchConfig.validate_batch_size s ∧
      BatchConfig.validate_batch_size s ≤ BatchConfig.MAX_BATCH_SIZE) ∧
    BatchConfig.validate_batch_size 5 = 10 ∧
    BatchConfig.validate_batch_size 500 = 100 ∧
    BatchConfig.DEFAULT_BATCH_SIZE = 50 ∧
    BatchConfig.MIN_BATCH_SIZE = 10 ∧
    BatchConfig.MAX_BATCH_SIZE = 100 := by
  refine ⟨fun s => ⟨le_max_right _ _, max_le ?_ (by decide)⟩, by decide, by decide, rfl, rfl, rfl⟩
  exact le_trans (min_le_right _ _) (by decide)

/-- C10: validation is idempotent — a result whose sentiment is a recognized
label, whose category is a taxonomy key, whose subcategory is one of that
category's group names, whose details list is non-empty and whose summary
has 10 to 200 characters is returned unchanged by `FeedbackResponse`
construction. -/
theorem validation_idempotent (s c sub : String) (l : List String) (sum : String)
    (hs : s ∈ ["positive", "negative", "neutral"])
    (hc : c ∈ taxonomyKeys)
    (hsub : sub ∈ groupNamesOf c)
    (hl : l ≠ [])
    (hsum : 10 ≤ sum.length ∧ sum.length ≤ 200) :
    mkFeedbackResponse ⟨s, c, sub, some l, sum⟩ = Except.ok ⟨s, c, sub, l, sum⟩ := by
  have hcne : c ≠ "Error" := by
    intro h
    subst h
    revert hc
    decide
  obtain ⟨G, hG⟩ : ∃ G, taxonomyLookup c = some G := by
    have hc' := hc
    simp only [taxonomyKeys, CATEGORIES, List.map_cons, List.map_nil, List.mem_cons,
      List.not_mem_nil, or_false] at hc'
    rcases hc' with rfl | rfl | rfl | rfl | rfl | rfl <;> exact ⟨_, rfl⟩
  have hmem : sub ∈ G.map Prod.fst ++ G.flatMap Prod.snd := by
    apply List.mem_append_left
    have h' := hsub
    rw [groupNamesOf, hG] at h'
    exact h'
  have hd : ensure_details l c = l := by
    unfold ensure_details
    rw [if_neg (by simp [hl])]
  simp only [mkFeedbackResponse, validate_category_key_id c hc,
    validate_subcategory_char sub c G hcne hG, if_pos hmem, hd,
    validate_sentiment_id s hs, if_pos hsum]

/-- Witness for `validation_idempotent` at a concrete already-valid result. -/
theorem validation_idempotent_witness :
    mkFeedbackResponse ⟨"positive", "Performance", "Speed Issues", some ["lag"], "0123456789"⟩ =
      Except.ok ⟨"positive", "Performance", "Speed Issues", ["lag"], "0123456789"⟩ :=
  validation_idempotent "positive" "Performance" "Speed Issues" ["lag"] "0123456789"
    (by decide) (by decide) (by decide) (by decide) (by decide)

/-- C6 counterexample: an API that fails on the first call and would succeed
on the second still surfaces the failure — the completion client makes a
single attempt, not up to `MAX_RETRIES` attempts with backoff. -/
theorem completion_single_attempt_example :
    create_chat_completion (fun n => if n = 0 then Except.error "boom" else Except.ok "ok")
      = (Except.error "boom", 1) ∧
    (fun n => if n = 0 then Except.error "boom" else Except.ok "ok") 1 = Except.ok "ok" ∧
    1 < MAX_RETRIES :=
  ⟨rfl, rfl, by decide⟩

/-- C6 (amended): `_create_chat_completion` makes exactly one API call and
propagates its outcome unchanged; `LLMConfig.MAX_RETRIES = 3` exists but no
retry loop consumes it. -/
theorem completion_single_attempt :
    (∀ api : Nat → Except String String, create_chat_completion api = (api 0, 1)) ∧
    MAX_RETRIES = 3 :=
  ⟨fun _ => rfl, rfl⟩

/-- C7 counterexample: the value returned on failure is the error-dependent
string `"Error: <message>"`, not one fixed caller-supplied default — two
different failures give two different return values (and the function has no
default parameter at all). -/
theorem get_response_safe_error_example :
    get_response_safe (fun _ => Except.error "boom A") = "Error: boom A" ∧
    get_response_safe (fun _ => Except.error "boom B") = "Error: boom B" ∧
    "Error: boom A" ≠ "Error: boom B" :=
  ⟨rfl, rfl, by decide⟩

/-- C7 (amended): `get_response_safe` never raises: it returns the completion
text on success and the fixed string `"Error: " ++ message` on any failure. -/
theorem get_response_safe_behavior :
    (∀ (api : Nat → Except String String) (e : String),
      api 0 = Except.error e → get_response_safe api = "Error: " ++ e) ∧
    (∀ (api : Nat → Except String String) (s : String),
      api 0 = Except.ok s → get_response_safe api = s) := by
  constructor
  · intro api e h
    unfold get_response_safe create_chat_completion
    rw [h]
  · intro api s h
    unfold get_response_safe create_chat_completion
    rw [h]

/-- Witness for `get_response_safe_behavior` at concrete call outcomes. -/
theorem get_response_safe_behavior_witness :
    get_response_safe (fun _ => Except.error "x") = "Error: x" ∧
    get_response_safe (fun _ => Except.ok "y") = "y" :=
  ⟨get_response_safe_behavior.1 (fun _ => Except.error "x") "x" rfl,
   get_response_safe_behavior.2 (fun _ => Except.ok "y") "y" rfl⟩

/-- C2 counterexample: two input rows paired by `zip` with a single
classifier result produce one output, not one output per input row. -/
theorem processor_zip_drops_items_example :
    (processor_process_feedback_batch "t" (fun _ => Except.ok ())
      (fun _ => [processing_error_result "x"]) [("a", ""), ("b", "")]).length = 1 ∧
    ([("a", ""), ("b", "")] : List (String × String)).length = 2 :=
  ⟨rfl, rfl⟩

/-- C2 (amended): on the success path the processor output has exactly
`min (number of rows) (number of classifier results)` entries — excess rows
beyond the classifier's result list are silently dropped by `zip`, with no
error placeholder. -/
theorem processor_output_length_min (now : String)
    (save : ProcessedFeedback → Except String Unit)
    (classify : List String → List FeedbackResponse)
    (rows : List (String × String)) :
    (processor_process_feedback_batch now save classify rows).length
      = min rows.length (classify (rows.map (fun r => r.fst))).length := by
  simp [processor_process_feedback_batch, Function.comp]
  rfl

/-- C5 counterexample: a provided details list with four entries, one of
them neither lowercase nor underscored, is accepted unchanged by validation
— there is no 1-to-3-entry or formatting check. -/
theorem details_constraint_example :
    mkFeedbackResponse ⟨"neutral", "Uncategorized", "Other",
        some ["NOT lowercase", "b", "c", "d"], "0123456789"⟩
      = Except.ok ⟨"neutral", "Uncategorized", "Other",
        ["NOT lowercase", "b", "c", "d"], "0123456789"⟩ ∧
    ¬ (["NOT lowercase", "b", "c", "d"].length ≤ 3) :=
  ⟨rfl, by decide⟩

/-- C5 (amended): every validated result has a non-empty details list (an
empty or missing value is replaced by a default); a non-empty provided list
passes through with no entry-count or formatting constraint. -/
theorem details_nonempty (raw : RawFeedback) (r : FeedbackResponse)
    (h : mkFeedbackResponse raw = Except.ok r) : r.details ≠ [] :=
  (mkFeedbackResponse_ok_props raw r h).2.2

/-- Witness for `details_nonempty` at a concrete validated result. -/
theorem details_nonempty_witness :
    (⟨"positive", "Performance", "Speed Issues", ["lag"], "0123456789"⟩ :
      FeedbackResponse).details ≠ [] :=
  details_nonempty ⟨"positive", "Performance", "Speed Issues", some ["lag"], "0123456789"⟩
    ⟨"positive", "Performance", "Speed Issues", ["lag"], "0123456789"⟩ rfl

/-- C4 counterexample: the raw subcategory `"crash"` is a tag nested under
the `"Functional Bugs"` group of `"Bug & Issues"` and is not a group name,
yet the validator returns it unchanged instead of rewriting it to its
group's name. -/
theorem subcategory_tag_not_rewritten_example :
    validate_subcategory "crash" "Bug & Issues" = Except.ok "crash" ∧
    "crash" ∉ groupNamesOf "Bug & Issues" ∧
    "crash" ∈ ((taxonomyLookup "Bug & Issues").getD []).flatMap Prod.snd :=
  ⟨rfl, by decide, by decide⟩

/-- C4 (amended): for every taxonomy category, a raw subcategory equal to a
group name or to a nested tag is returned unchanged; when it matches
neither, a category-specific default is substituted only for Performance,
Bug & Issues and Feature Requests, and the raw value falls through unchanged
for every other category. -/
theorem validate_subcategory_on_keys (sub c : String) (hc : c ∈ taxonomyKeys) :
    validate_subcategory sub c =
      Except.ok (if sub ∈ validSubsOf c then sub
        else if c = "Performance" then "Speed Issues"
        else if c = "Bug & Issues" then "UI/UX Bugs"
        else if c = "Feature Requests" then "New Features"
        else sub) := by
  have hcne : c ≠ "Error" := by
    intro h
    subst h
    revert hc
    decide
  obtain ⟨G, hG⟩ : ∃ G, taxonomyLookup c = some G := by
    have hc' := hc
    simp only [taxonomyKeys, CATEGORIES, List.map_cons, List.map_nil, List.mem_cons,
      List.not_mem_nil, or_false] at hc'
    rcases hc' with rfl | rfl | rfl | rfl | rfl | rfl <;> exact ⟨_, rfl⟩
  rw [validate_subcategory_char sub c G hcne hG]
  have hvs : validSubsOf c = G.map Prod.fst ++ G.flatMap Prod.snd := by
    simp only [validSubsOf, hG, Option.getD_some]
  rw [hvs]

/-- Witness for `validate_subcategory_on_keys`: an unmatched value under
`"Performance"` becomes the default `"Speed Issues"`. -/
theorem validate_subcategory_on_keys_witness :
    validate_subcategory "zzzz" "Performance" = Except.ok "Speed Issues" := by
  have h := validate_subcategory_on_keys "zzzz" "Performance" (by decide)
  rw [if_neg (by decide), if_pos rfl] at h
  exact h

/-- The sentinel category is not one of the three default-bearing keys. -/
theorem hErrNotDefault :
    ("Error" : String) ∉ (["Performance", "Bug & Issues", "Feature Requests"] : List String) := by
  decide

/-- Category/subcategory invariant of a single classified element, whether
validation succeeded or was substituted by a Validation Error result. -/
theorem classify_element_inv (j : Json) :
    ((classify_element j).category = "Error" ∨ (classify_element j).category ∈ taxonomyKeys) ∧
    ((classify_element j).category ∈ ["Performance", "Bug & Issues", "Feature Requests"] →
      (classify_element j).subcategory ∈ validSubsOf (classify_element j).category) := by
  cases hjr : jsonToRaw j with
  | error e =>
    have hce : classify_element j = validation_error_result e := by
      unfold classify_element
      rw [hjr]
      rfl
    rw [hce]
    exact ⟨Or.inl rfl, fun hmem => absurd hmem hErrNotDefault⟩
  | ok raw =>
    cases hmk : mkFeedbackResponse raw with
    | error e =>
      have hce : classify_element j = validation_error_result e := by
        unfold classify_element
        rw [hjr]
        simp only [Except.bind]
        rw [hmk]
      rw [hce]
      exact ⟨Or.inl rfl, fun hmem => absurd hmem hErrNotDefault⟩
    | ok r =>
      have hce : classify_element j = r := by
        unfold classify_element
        rw [hjr]
        simp only [Except.bind]
        rw [hmk]
      rw [hce]
      obtain ⟨h1, h2, -⟩ := mkFeedbackResponse_ok_props raw r hmk
      exact ⟨h1.symm.imp id (fun h => h), h2⟩

/-- C3 (amended): every result of the batch classifier has a category that
is `"Error"` or a taxonomy key; and whenever the category is one of the
three with default subcategories (Performance, Bug & Issues, Feature
Requests), the subcategory lies in the category's valid set. For the other
categories an unrecognized subcategory can pass through unchanged. -/
theorem batch_category_subcategory_invariant (fb : List String)
    (resp : Except String String) (r : FeedbackResponse)
    (hr : r ∈ llm_process_feedback_batch fb resp) :
    (r.category = "Error" ∨ r.category ∈ taxonomyKeys) ∧
    (r.category ∈ ["Performance", "Bug & Issues", "Feature Requests"] →
      r.subcategory ∈ validSubsOf r.category) := by
  unfold llm_process_feedback_batch at hr
  cases resp with
  | error e =>
    obtain ⟨a, -, rfl⟩ := List.mem_map.mp hr
    exact ⟨Or.inl rfl, fun hmem => absurd hmem hErrNotDefault⟩
  | ok text =>
    have hr' : r ∈ (match pyJsonLoads text with
        | none => List.map (fun _ => processing_error_result "Invalid JSON") fb
        | some j =>
          match pyIterate j with
          | none => List.map (fun _ => processing_error_result "TypeError") fb
          | some elems => List.map classify_element elems) := hr
    cases hjl : pyJsonLoads text with
    | none =>
      rw [hjl] at hr'
      obtain ⟨a, -, rfl⟩ := List.mem_map.mp hr'
      exact ⟨Or.inl rfl, fun hmem => absurd hmem hErrNotDefault⟩
    | some j =>
      rw [hjl] at hr'
      have hr'' : r ∈ (match pyIterate j with
          | none => List.map (fun _ => processing_error_result "TypeError") fb
          | some elems => List.map classify_element elems) := hr'
      cases hit : pyIterate j with
      | none =>
        rw [hit] at hr''
        obtain ⟨a, -, rfl⟩ := List.mem_map.mp hr''
        exact ⟨Or.inl rfl, fun hmem => absurd hmem hErrNotDefault⟩
      | some elems =>
        rw [hit] at hr''
        obtain ⟨j2, -, rfl⟩ := List.mem_map.mp hr''
        exact classify_element_inv j2

/-- Witness for `batch_category_subcategory_invariant` at a whole-batch
error result. -/
theorem batch_category_subcategory_invariant_witness :
    ((processing_error_result "x").category = "Error" ∨
      (processing_error_result "x").category ∈ taxonomyKeys) ∧
    ((processing_error_result "x").category ∈
        ["Performance", "Bug & Issues", "Feature Requests"] →
      (processing_error_result "x").subcategory ∈
        validSubsOf (processing_error_result "x").category) :=
  batch_category_subcategory_invariant ["a"] (Except.error "x")
    (processing_error_result "x") (by decide)

/-- A well-formed response element whose subcategory matches nothing in its
category, for a category without a default subcategory. -/
def invalid_subcategory_response : String :=
  "[\x7b\"sentiment\":\"neutral\",\"category\":\"Uncategorized\",\"subcategory\":\"zzzz\",\"details\":[\"x\"],\"summary\":\"0123456789\"\x7d]"

/-- C3 counterexample: a parsed element with category `"Uncategorized"` and
subcategory `"zzzz"` is returned with the invalid subcategory intact — it
is neither an Error result nor in the category's valid subcategory set. -/
theorem batch_invariant_counterexample :
    llm_process_feedback_batch ["a"] (Except.ok invalid_subcategory_response)
      = [⟨"neutral", "Uncategorized", "zzzz", ["x"], "0123456789"⟩] ∧
    "Uncategorized" ≠ "Error" ∧
    "Uncategorized" ∈ taxonomyKeys ∧
    "zzzz" ∉ validSubsOf "Uncategorized" ∧
    "zzzz" ∉ groupNamesOf "Uncategorized" := by
  exact ⟨by decide, by decide, by decide, by decide, by decide⟩

/-- One element of a well-formed LLM batch response. -/
def ok_obj_str : String :=
  "\x7b\"sentiment\":\"neutral\",\"category\":\"Uncategorized\",\"subcategory\":\"Other\",\"details\":[\"x\"],\"summary\":\"0123456789\"\x7d"

/-- A well-formed LLM response that parses as a JSON array of two results. -/
def two_result_response : String :=
  "[" ++ ok_obj_str ++ "," ++ ok_obj_str ++ "]"

set_option maxRecDepth 40000 in
/-- C1 counterexample: a single-text batch whose LLM response parses as a
two-element JSON array yields two results, not one per input text. -/
theorem classifyBatch_length_mismatch_example :
    (llm_process_feedback_batch ["single feedback"] (Except.ok two_result_response)).length = 2 ∧
    (["single feedback"] : List String).length = 1 :=
  ⟨by decide, rfl⟩

/-- C1 (amended): the batch classifier output length equals the input length
on every error path (call failure, unparsable response, non-iterable JSON
value), and equals the parsed array's element count on the success path —
which matches the input length only when the LLM complies. -/
theorem classifyBatch_length_characterization :
    (∀ (fb : List String) (e : String),
      (llm_process_feedback_batch fb (Except.error e)).length = fb.length) ∧
    (∀ (fb : List String) (s : String), pyJsonLoads s = none →
      (llm_process_feedback_batch fb (Except.ok s)).length = fb.length) ∧
    (∀ (fb : List String) (s : String) (j : Json), pyJsonLoads s = some j →
      pyIterate j = none →
      (llm_process_feedback_batch fb (Except.ok s)).length = fb.length) ∧
    (∀ (fb : List String) (s : String) (j : Json) (elems : List Json),
      pyJsonLoads s = some j → pyIterate j = some elems →
      (llm_process_feedback_batch fb (Except.ok s)).length = elems.length) := by
  refine ⟨fun fb e => ?_, fun fb s h => ?_, fun fb s j h1 h2 => ?_,
    fun fb s j elems h1 h2 => ?_⟩
  · simp [llm_process_feedback_batch]
  · simp [llm_process_feedback_batch, h]
  · simp [llm_process_feedback_batch, h1, h2]
  · simp [llm_process_feedback_batch, h1, h2]

/-- Witness for `classifyBatch_length_characterization` at concrete
responses on each path. -/
theorem classifyBatch_length_characterization_witness :
    (llm_process_feedback_batch ["a"] (Except.error "down")).length = (["a"] : List String).length ∧
    (llm_process_feedback_batch ["a"] (Except.ok "not json")).length = (["a"] : List String).length ∧
    (llm_process_feedback_batch ["a"] (Except.ok "7")).length = (["a"] : List String).length ∧
    (llm_process_feedback_batch ["a"] (Except.ok "[]")).length = ([] : List Json).length :=
  ⟨classifyBatch_length_characterization.1 ["a"] "down",
   classifyBatch_length_characterization.2.1 ["a"] "not json" rfl,
   classifyBatch_length_characterization.2.2.1 ["a"] "7" (Json.num 7) rfl rfl,
   classifyBatch_length_characterization.2.2.2 ["a"] "[]" (Json.arr []) [] rfl rfl⟩

/-- The two-result response wrapped in a Markdown code fence. -/
def fenced_array_response : String :=
  "\x60\x60\x60json\n" ++ two_result_response ++ "\n\x60\x60\x60"

/-- A single response object wrapped in a Markdown code fence. -/
def fenced_object_response : String :=
  "\x60\x60\x60json\n" ++ ok_obj_str ++ "\n\x60\x60\x60"

set_option maxRecDepth 80000 in
/-- C8 counterexample: a fenced response whose content is a well-formed JSON
array (it parses after fence stripping) nevertheless produces a whole-batch
Error output, because the batch path parses the raw text unstripped. -/
theorem batch_fenced_response_errors_example :
    (llm_process_feedback_batch ["a", "b"] (Except.ok fenced_array_response)).map
        FeedbackResponse.category = ["Error", "Error"] ∧
    (pyJsonLoads (strip_llm_fence fenced_array_response)).isSome = true ∧
    (pyJsonLoads fenced_array_response).isNone = true :=
  ⟨by decide, by decide, by decide⟩

set_option maxRecDepth 80000 in
/-- C8 (amended): fence stripping exists only in the single-item parse path
(`_parse_llm_response`); the batch path runs `json.loads` on the raw
response, so a fenced well-formed array response degrades to one Processing
Error result per input text, while the same fencing is accepted on the
single-item path. -/
theorem fence_stripping_only_single_path :
    llm_process_feedback_batch ["a", "b"] (Except.ok fenced_array_response)
      = [processing_error_result "Invalid JSON", processing_error_result "Invalid JSON"] ∧
    parse_llm_response fenced_object_response
      = Except.ok ⟨"neutral", "Uncategorized", "Other", ["x"], "0123456789"⟩ :=
  ⟨by decide, rfl⟩

end Feda
